import Mathlib

/-!
Shallow embedding of the image-api repository (an Express proxy for the
Cloudflare Workers AI Stable Diffusion endpoint) and proofs about it.

The embedding follows the JavaScript sources file by file:
* `src/services/cloudflare.js`  : credential validation, the upstream
  response classifier `processCloudflareResponse`, `generateImage`, and
  the prompt filter `isValidPrompt`;
* `src/middleware/validation.js`: the `validatePrompt` middleware and the
  sliding-window rate limiter `validateRequestRate`;
* `src/routes/generate.js`      : the POST handler (JSON envelope mode)
  and the GET handler (raw-binary browser mode).

JavaScript strings are modelled as Lean `String`s with `String.length`
counting characters; `String.prototype.trim` is modelled over the
character list, and `toLowerCase` by its ASCII fragment (the prohibited
terms are ASCII).  Timestamps are integers (milliseconds, as returned by
`Date.now()`), and the wall clock of a request is passed in explicitly.
-/

/-! ## JavaScript string primitives -/

/-- Whitespace characters recognised by `String.prototype.trim`:
tab, line feed, vertical tab, form feed, carriage return, space, NBSP,
the Unicode space separators, the line separators and the BOM. -/
def jsWhitespace : List Char :=
  ['\t', '\n', '\x0b', '\x0c', '\r', ' ', '\u00a0', '\u1680',
   '\u2000', '\u2001', '\u2002', '\u2003', '\u2004', '\u2005', '\u2006',
   '\u2007', '\u2008', '\u2009', '\u200a', '\u2028', '\u2029', '\u202f',
   '\u205f', '\u3000', '\ufeff']

/-- Whether a character is JavaScript whitespace. -/
def isJsWs (c : Char) : Bool := jsWhitespace.contains c

/-- ASCII fragment of `String.prototype.toLowerCase`; the prohibited
terms checked by the code are ASCII, so this is the relevant fragment. -/
def jsLowerChar (c : Char) : Char :=
  match c with
  | 'A' => 'a' | 'B' => 'b' | 'C' => 'c' | 'D' => 'd' | 'E' => 'e'
  | 'F' => 'f' | 'G' => 'g' | 'H' => 'h' | 'I' => 'i' | 'J' => 'j'
  | 'K' => 'k' | 'L' => 'l' | 'M' => 'm' | 'N' => 'n' | 'O' => 'o'
  | 'P' => 'p' | 'Q' => 'q' | 'R' => 'r' | 'S' => 's' | 'T' => 't'
  | 'U' => 'u' | 'V' => 'v' | 'W' => 'w' | 'X' => 'x' | 'Y' => 'y'
  | 'Z' => 'z' | c => c

/-- Drop leading and trailing characters satisfying `p`. -/
def trimList (p : Char → Bool) (l : List Char) : List Char :=
  ((l.dropWhile p).reverse.dropWhile p).reverse

/-- `String.prototype.trim`. -/
def jsTrim (s : String) : String := String.mk (trimList isJsWs s.toList)

/-- `String.prototype.toLowerCase` (ASCII fragment). -/
def jsLower (s : String) : String := String.mk (s.toList.map jsLowerChar)

/-- `String.prototype.includes sub`, as a scan over the haystack. -/
def hasSubstr (sub : List Char) : List Char → Bool
  | [] => sub.isEmpty
  | c :: rest => sub.isPrefixOf (c :: rest) || hasSubstr sub rest

/-! ## Prompt validation (`isValidPrompt`, cloudflare.js lines 168-185) -/

/-- The fixed prohibited-terms set of `isValidPrompt`. -/
def prohibitedTerms : List String := ["nsfw", "explicit", "gore", "violence"]

/-- Whether the (already trimmed) prompt contains a prohibited term,
case-insensitively: `prohibitedTerms.some(term => lowerPrompt.includes(term))`. -/
def hasProhibited (t : String) : Bool :=
  prohibitedTerms.any fun term => hasSubstr term.toList (jsLower t).toList

/-- `isValidPrompt` from `src/services/cloudflare.js`: the argument is a
string here, so the JavaScript falsy test `!prompt` reduces to the
empty-string test; then trim, bounds check, prohibited-terms check. -/
def isValidPrompt (prompt : String) : Bool :=
  if prompt = "" then false
  else
    let trimmedPrompt := jsTrim prompt
    if trimmedPrompt.length < 3 || trimmedPrompt.length > 2000 then false
    else !(hasProhibited trimmedPrompt)

/-! ## The `validatePrompt` middleware (validation.js lines 15-71) -/

/-- A JavaScript value arriving as `req.body.prompt`. `num` carries an
integer (floating-point values other than 0 are truthy like any other). -/
inductive JsValue where
  | undefinedV
  | nullV
  | boolV (b : Bool)
  | numV (n : Int)
  | strV (s : String)
  | objV
deriving DecidableEq

/-- JavaScript truthiness test `!v`. -/
def jsFalsy : JsValue → Bool
  | .undefinedV => true
  | .nullV => true
  | .boolV b => !b
  | .numV n => n = 0
  | .strV s => s = ""
  | .objV => false

def msgTooShort : String := "Prompt must be at least 3 characters long"

def msgTooLong : String := "Prompt must not exceed 2000 characters"

def msgProhibited : String := "Prompt contains prohibited content or invalid characters"

/-- Outcome of the `validatePrompt` middleware: the three 400 branches
(missing field, wrong type, invalid content with its message), or the
call to `next()` with the trimmed prompt written back into the body. -/
inductive VPResult where
  | missingField
  | wrongType
  | rejected (msg : String)
  | ok (canonical : String)
deriving DecidableEq

/-- `validatePrompt` from `src/middleware/validation.js`: falsy check,
type check, `isValidPrompt` check with the message selected by trimmed
length, and on success the body prompt replaced by its trimmed form. -/
def validatePrompt (v : JsValue) : VPResult :=
  if jsFalsy v then .missingField
  else
    match v with
    | .strV prompt =>
      if !(isValidPrompt prompt) then
        let trimmedPrompt := jsTrim prompt
        .rejected (if trimmedPrompt.length < 3 then msgTooShort
                   else if trimmedPrompt.length > 2000 then msgTooLong
                   else msgProhibited)
      else .ok (jsTrim prompt)
    | _ => .wrongType

/-! ## The sliding-window rate limiter (validation.js lines 96-133) -/

/-- The rate-limit window in milliseconds (`rateLimit.windowMs`). -/
def windowMs : Int := 60000

/-- Maximum admitted requests per window per key (`rateLimit.maxRequests`). -/
def maxRequests : Nat := 10

/-- The global in-memory store `global.rateLimitStore`: a map from client
IP to its timestamp list; `none` models an unseen key. -/
def RateStore : Type := String → Option (List Int)

/-- The store before any request has been seen. -/
def emptyStore : RateStore := fun _ => none

/-- `Math.ceil(a / b)` for integer `a` and positive integer `b`. -/
def jsCeilDiv (a b : Int) : Int := -(Int.fdiv (-a) b)

/-- The window filter of `validateRequestRate`:
`clientRequests.filter(timestamp => now - timestamp < rateLimit.windowMs)`. -/
def pruneWindow (now : Int) (clientRequests : List Int) : List Int :=
  clientRequests.filter fun timestamp => decide (now - timestamp < windowMs)

/-- Outcome of the rate-limit middleware: `next()` or the 429 response
with its `retryAfter` value. -/
inductive RateOutcome where
  | allowed
  | denied (retryAfter : Int)
deriving DecidableEq

/-- `validateRequestRate` from `src/middleware/validation.js`: read the
client's timestamps (`|| []` for an unseen key), prune entries outside
the window, deny with `Math.ceil((validRequests[0] + windowMs - now) / 1000)`
when the pruned count has reached the maximum (the store is left as it
was), otherwise append `now` and store the pruned list back. -/
def validateRequestRate (store : RateStore) (clientIP : String) (now : Int) :
    RateOutcome × RateStore :=
  let clientRequests := (store clientIP).getD []
  let validRequests := pruneWindow now clientRequests
  if maxRequests ≤ validRequests.length then
    (.denied (jsCeilDiv (validRequests.headD 0 + windowMs - now) 1000), store)
  else
    (.allowed, fun k => if k = clientIP then some (validRequests ++ [now]) else store k)

/-! ## The upstream client (`src/services/cloudflare.js`) -/

def msgAccountRequired : String :=
  "CLOUDFLARE_ACCOUNT_ID environment variable is required"

def msgTokenRequired : String :=
  "CLOUDFLARE_API_TOKEN environment variable is required"

/-- The two environment-sourced credentials; `none` models an unset
environment variable. -/
structure Env where
  accountId : Option String
  apiToken : Option String
deriving DecidableEq

/-- JavaScript falsy test on an environment variable (`!accountId`):
unset, or set to the empty string. -/
def jsFalsyOptStr : Option String → Bool
  | none => true
  | some s => s = ""

/-- A structured entry of a Cloudflare JSON error body (`errors[i]`);
the `message` field may be absent. -/
structure CFErrorEntry where
  message : Option String
deriving DecidableEq

/-- A parsed Cloudflare JSON error body; the `errors` field may be absent. -/
structure CFErrorBody where
  errors : Option (List CFErrorEntry)
deriving DecidableEq

/-- A fetch `Response`: its HTTP status, the result of attempting to
parse the body as JSON (`none` when parsing throws), and the raw body
bytes returned by `arrayBuffer()`. -/
structure CFResponse where
  status : Nat
  jsonBody : Option CFErrorBody
  bytes : List Nat
deriving DecidableEq

/-- `response.ok` of the Fetch API: status in the range 200-299. -/
def respOk (r : CFResponse) : Bool :=
  decide (200 ≤ r.status) && decide (r.status ≤ 299)

/-- What the network does when `fetch` is reached: deliver a response,
or reject (network failure). A mock parameter of the embedding. -/
inductive UpstreamOutcome where
  | response (r : CFResponse)
  | networkError (msg : String)
deriving DecidableEq

/-- Result of `generateImage`, as a tagged variant in place of the
return-or-throw control flow of the source: the base64 payload, an
`AuthenticationError`, a `CloudflareAPIError` carrying the original
HTTP status, or the wrapped unexpected error. -/
inductive GenResult where
  | ok (image : String)
  | authError (msg : String)
  | apiError (msg : String) (status : Nat)
  | unexpected (msg : String)
deriving DecidableEq

/-- Base64 alphabet used by `Buffer.prototype.toString('base64')`. -/
def base64Alphabet : List Char :=
  "ABCDEFGHIJKLMNOPQRSTUVWXYZabcdefghijklmnopqrstuvwxyz0123456789+/".toList

/-- The base64 digit for a 6-bit value. -/
def b64Char (n : Nat) : Char := base64Alphabet.getD n 'A'

/-- Base64 encoding of a byte list, three bytes to four digits with
`=` padding. -/
def base64EncodeList : List Nat → List Char
  | [] => []
  | [a] => [b64Char (a / 4), b64Char (a % 4 * 16), '=', '=']
  | [a, b] => [b64Char (a / 4), b64Char (a % 4 * 16 + b / 16),
               b64Char (b % 16 * 4), '=']
  | a :: b :: c :: rest =>
      b64Char (a / 4) :: b64Char (a % 4 * 16 + b / 16) ::
      b64Char (b % 16 * 4 + c / 64) :: b64Char (c % 64) ::
      base64EncodeList rest

/-- `Buffer.from(arrayBuffer).toString('base64')`. -/
def base64Encode (bytes : List Nat) : String := String.mk (base64EncodeList bytes)

/-- The generic error message used when no structured message is found:
`Cloudflare API request failed with status <code>`. -/
def genericCFMessage (status : Nat) : String :=
  "Cloudflare API request failed with status " ++ toString status

/-- The error message selected by `processCloudflareResponse` on a
non-ok response: the first entry of a parsed non-empty `errors` array
when its `message` is truthy (`errorData.errors[0].message || errorMessage`),
otherwise the generic message. -/
def cfErrorMessage (r : CFResponse) : String :=
  match r.jsonBody with
  | none => genericCFMessage r.status
  | some body =>
    match body.errors with
    | none => genericCFMessage r.status
    | some [] => genericCFMessage r.status
    | some (e :: _) =>
      match e.message with
      | none => genericCFMessage r.status
      | some m => if m = "" then genericCFMessage r.status else m

/-- `processCloudflareResponse` from `src/services/cloudflare.js`: on a
non-ok status throw `CloudflareAPIError(errorMessage, response.status)`;
on success base64-encode the body bytes. -/
def processCloudflareResponse (r : CFResponse) : GenResult :=
  if respOk r then .ok (base64Encode r.bytes)
  else .apiError (cfErrorMessage r) r.status

/-- `generateImage` from `src/services/cloudflare.js`. The pair's second
component records whether `fetch` was reached (the call counter of the
spec's mock): credential validation happens first and returns the
`AuthenticationError` without any network call; a fetch rejection is
wrapped as `Image generation failed: <original message>`. The prompt
only feeds the request payload, which the mocked network ignores. -/
def generateImage (env : Env) (net : UpstreamOutcome) (_prompt : String) :
    GenResult × Bool :=
  if jsFalsyOptStr env.accountId then (.authError msgAccountRequired, false)
  else if jsFalsyOptStr env.apiToken then (.authError msgTokenRequired, false)
  else
    match net with
    | .networkError m => (.unexpected ("Image generation failed: " ++ m), true)
    | .response r => (processCloudflareResponse r, true)

/-! ## The route handlers (`src/routes/generate.js`) -/

/-- The wall clock of one request: the ISO-8601 string produced by
`new Date().toISOString()` at response time, and the elapsed
`Date.now() - startTime` milliseconds. -/
structure Clock where
  iso : String
  elapsedMs : Int
deriving DecidableEq

/-- The JSON payload sent by the POST handler (fields absent from a
given branch are `none`). -/
structure PostReply where
  status : Nat
  success : Bool
  error : Option String := none
  message : Option String := none
  image : Option String := none
  prompt : Option String := none
  timestamp : Option String := none
  processingTimeMs : Option Int := none
deriving DecidableEq

def msgMissingFieldDetail : String :=
  "Request body must include a \"prompt\" field with the text description for image generation."

def msgWrongTypeDetail : String := "The \"prompt\" field must be a string."

/-- The `POST /generate` handler body together with the `validatePrompt`
middleware in front of it, exactly the chain mounted at
`router.post('/', validatePrompt, ...)` in `src/routes/generate.js`
(line 32). Error statuses follow the handler's mapping: 502 for
`CloudflareAPIError`, 401 for `AuthenticationError`, 500 otherwise
(the `ValidationError` branch of the mapping is unreachable: nothing
thrown by `generateImage` carries that name). -/
def handlePost (env : Env) (net : UpstreamOutcome) (body : JsValue)
    (clock : Clock) : PostReply :=
  match validatePrompt body with
  | .missingField =>
      { status := 400, success := false,
        error := some "Missing required field: prompt",
        message := some msgMissingFieldDetail }
  | .wrongType =>
      { status := 400, success := false,
        error := some "Invalid prompt type",
        message := some msgWrongTypeDetail }
  | .rejected msg =>
      { status := 400, success := false,
        error := some "Invalid prompt", message := some msg }
  | .ok prompt =>
      match generateImage env net prompt with
      | (.ok img, _) =>
          { status := 200, success := true, image := some img,
            prompt := some prompt, timestamp := some clock.iso,
            processingTimeMs := some clock.elapsedMs }
      | (.authError _, _) =>
          { status := 401, success := false,
            error := some "Invalid Cloudflare API credentials",
            prompt := some prompt, timestamp := some clock.iso,
            processingTimeMs := some clock.elapsedMs }
      | (.apiError _ _, _) =>
          { status := 502, success := false,
            error := some "Failed to communicate with Cloudflare AI service",
            prompt := some prompt, timestamp := some clock.iso,
            processingTimeMs := some clock.elapsedMs }
      | (.unexpected _, _) =>
          { status := 500, success := false,
            error := some "Failed to generate image due to an internal error",
            prompt := some prompt, timestamp := some clock.iso,
            processingTimeMs := some clock.elapsedMs }

/-- The reply of the `GET /generate/:prompt` handler: either the raw
image (sent as the decoded bytes of `imageBase64`) or a JSON error body. -/
structure GetReply where
  status : Nat
  isImage : Bool := false
  imageBase64 : Option String := none
  error : Option String := none
  message : Option String := none
  prompt : Option String := none
  method : Option String := none
deriving DecidableEq

/-- The `GET /generate/:prompt` handler from `src/routes/generate.js`
(lines 91-154): its own inline length check (no prohibited-content
check), then `generateImage(prompt.trim())`. The pair's second
component records whether `generateImage` was called. -/
def handleGet (env : Env) (net : UpstreamOutcome) (prompt : String)
    (_clock : Clock) : GetReply × Bool :=
  if prompt = "" || (jsTrim prompt).length < 3 || (jsTrim prompt).length > 2000 then
    ({ status := 400, error := some "Invalid prompt",
       message := some "Prompt must be between 3 and 2000 characters long" },
     false)
  else
    match generateImage env net (jsTrim prompt) with
    | (.ok img, _) =>
        ({ status := 200, isImage := true, imageBase64 := some img,
           prompt := some (jsTrim prompt) }, true)
    | (.authError _, _) =>
        ({ status := 401, error := some "Invalid Cloudflare API credentials",
           prompt := some (jsTrim prompt), method := some "GET" }, true)
    | (.apiError _ _, _) =>
        ({ status := 502,
           error := some "Failed to communicate with Cloudflare AI service",
           prompt := some (jsTrim prompt), method := some "GET" }, true)
    | (.unexpected _, _) =>
        ({ status := 500,
           error := some "Failed to generate image due to an internal error",
           prompt := some (jsTrim prompt), method := some "GET" }, true)

/-- One `POST /generate` request as processed by the server, threading
the process-wide rate-limit store. The middleware chain mounted for the
route is `[validatePrompt, handler]` (`src/routes/generate.js` line 32
imports and mounts only `validatePrompt`; neither the router nor the
server file mounts `validateRequestRate`), so the store is never read
or written by the chain and passes through unchanged. -/
def postPipeline (env : Env) (net : UpstreamOutcome) (body : JsValue)
    (clock : Clock) (store : RateStore) : PostReply × RateStore :=
  (handlePost env net body clock, store)

/-- Process a sequence of `POST /generate` requests in order, threading
the rate-limit store from one to the next. -/
def runPosts (env : Env) (net : UpstreamOutcome) (clock : Clock) :
    List JsValue → RateStore → List PostReply × RateStore
  | [], store => ([], store)
  | b :: rest, store =>
      let step := postPipeline env net b clock store
      let next := runPosts env net clock rest step.2
      (step.1 :: next.1, next.2)

/-! ## Helper lemmas about the string primitives -/

theorem dropWhile_eq_self_of {p : Char → Bool} {l : List Char}
    (h : ∀ c ∈ l, p c = false) : l.dropWhile p = l := by
  cases l with
  | nil => rfl
  | cons c t => rw [List.dropWhile_cons, h c (List.mem_cons_self c t)]; simp

theorem trimList_eq_self {l : List Char}
    (h : ∀ c ∈ l, isJsWs c = false) : trimList isJsWs l = l := by
  rw [trimList, dropWhile_eq_self_of h,
    dropWhile_eq_self_of (fun c hc => h c (List.mem_reverse.mp hc)),
    List.reverse_reverse]

theorem trimList_infixOf (p : Char → Bool) (l : List Char) :
    trimList p l <:+: l := by
  have h1 : l.dropWhile p <:+ l := List.dropWhile_suffix p
  have h2 : (l.dropWhile p).reverse.dropWhile p <:+ (l.dropWhile p).reverse :=
    List.dropWhile_suffix p
  have h3 : trimList p l <+: l.dropWhile p := by
    have h4 := (@List.reverse_prefix _ ((l.dropWhile p).reverse.dropWhile p)
      ((l.dropWhile p).reverse)).mpr h2
    rwa [List.reverse_reverse] at h4
  exact h3.isInfix.trans h1.isInfix

theorem hasSubstr_iff {sub l : List Char} :
    hasSubstr sub l = true ↔ sub <:+: l := by
  induction l with
  | nil =>
    rw [hasSubstr, List.isEmpty_iff, List.infix_nil]
  | cons c t ih =>
    rw [hasSubstr, Bool.or_eq_true, List.isPrefixOf_iff_prefix, ih,
      List.infix_cons_iff]

theorem sub_dropWhile_of_clean {p : Char → Bool} {sub l : List Char}
    (hne : sub ≠ []) (hclean : ∀ c ∈ sub, p c = false) (h : sub <:+: l) :
    sub <:+: l.dropWhile p := by
  induction l with
  | nil => rw [List.infix_nil] at h; exact absurd h hne
  | cons c t ih =>
    rw [List.infix_cons_iff] at h
    rw [List.dropWhile_cons]
    by_cases hp : p c
    · rw [if_pos hp]
      rcases h with h | h
      · cases sub with
        | nil => exact absurd rfl hne
        | cons a as =>
          rw [List.cons_prefix_cons] at h
          have : p a = false := hclean a (List.mem_cons_self a as)
          rw [h.1] at this
          rw [this] at hp
          exact absurd hp (by simp)
      · exact ih h
    · rw [if_neg hp]
      rcases h with h | h
      · exact h.isInfix
      · exact (List.infix_cons_iff).mpr (Or.inr h)

theorem sub_trimList_of_clean {p : Char → Bool} {sub l : List Char}
    (hne : sub ≠ []) (hclean : ∀ c ∈ sub, p c = false) (h : sub <:+: l) :
    sub <:+: trimList p l := by
  have h1 : sub <:+: l.dropWhile p := sub_dropWhile_of_clean hne hclean h
  have h2 : sub.reverse <:+: (l.dropWhile p).reverse :=
    (List.reverse_infix).mpr h1
  have hne2 : sub.reverse ≠ [] := by
    intro hc; apply hne
    have := congrArg List.reverse hc
    rwa [List.reverse_reverse] at this
  have hclean2 : ∀ c ∈ sub.reverse, p c = false :=
    fun c hc => hclean c (List.mem_reverse.mp hc)
  have h3 : sub.reverse <:+: ((l.dropWhile p).reverse).dropWhile p :=
    sub_dropWhile_of_clean hne2 hclean2 h2
  have h4 := (@List.reverse_infix _ sub.reverse
    (((l.dropWhile p).reverse).dropWhile p)).mpr h3
  rwa [List.reverse_reverse] at h4

theorem isJsWs_jsLowerChar (c : Char) : isJsWs (jsLowerChar c) = isJsWs c := by
  unfold jsLowerChar
  split <;> rfl

theorem dropWhile_map_lower (l : List Char) :
    (l.map jsLowerChar).dropWhile isJsWs = (l.dropWhile isJsWs).map jsLowerChar := by
  induction l with
  | nil => rfl
  | cons c t ih =>
    rw [List.map_cons, List.dropWhile_cons, List.dropWhile_cons,
      isJsWs_jsLowerChar]
    by_cases h : isJsWs c
    · rw [if_pos h, if_pos h, ih]
    · rw [if_neg h, if_neg h, List.map_cons]

theorem trimList_map_lower (l : List Char) :
    trimList isJsWs (l.map jsLowerChar) = (trimList isJsWs l).map jsLowerChar := by
  rw [trimList, trimList, dropWhile_map_lower, ← List.map_reverse,
    dropWhile_map_lower, ← List.map_reverse]

theorem toList_jsLower (s : String) : (jsLower s).toList = s.toList.map jsLowerChar := rfl

theorem toList_jsTrim (s : String) : (jsTrim s).toList = trimList isJsWs s.toList := rfl

theorem length_jsTrim (s : String) : (jsTrim s).length = (trimList isJsWs s.toList).length := rfl

theorem jsLower_jsTrim_toList (s : String) :
    (jsLower (jsTrim s)).toList = trimList isJsWs ((jsLower s).toList) := by
  rw [toList_jsLower, toList_jsTrim, toList_jsLower, trimList_map_lower]

/-! ## Prompt-validation claims -/

theorem jsTrim_empty : jsTrim "" = "" := rfl

theorem ne_empty_of_trim_length {s : String} (h : 3 ≤ (jsTrim s).length) :
    s ≠ "" := by
  intro hc; subst hc; simp [jsTrim_empty] at h

/-- C6: every input string whose trimmed form has length between 3 and
2000 inclusive and that contains no case-insensitive occurrence of a
prohibited term is accepted by the `validatePrompt` middleware, and the
canonical prompt passed downstream is the trimmed form of the input. -/
theorem validatePrompt_accepts_clean (s : String)
    (h3 : 3 ≤ (jsTrim s).length) (h2000 : (jsTrim s).length ≤ 2000)
    (hclean : ∀ term ∈ prohibitedTerms,
      hasSubstr term.toList (jsLower s).toList = false) :
    validatePrompt (.strV s) = .ok (jsTrim s) := by
  have hne : s ≠ "" := ne_empty_of_trim_length h3
  have hpro : hasProhibited (jsTrim s) = false := by
    rw [hasProhibited, List.any_eq_false]
    intro term hterm
    simp only [Bool.not_eq_true]
    cases hsub : hasSubstr term.toList (jsLower (jsTrim s)).toList with
    | false => rfl
    | true =>
      exfalso
      have h1 : term.toList <:+: (jsLower (jsTrim s)).toList :=
        hasSubstr_iff.mp hsub
      rw [jsLower_jsTrim_toList] at h1
      have h2 : term.toList <:+: (jsLower s).toList :=
        h1.trans (trimList_infixOf isJsWs (jsLower s).toList)
      have := hclean term hterm
      rw [hasSubstr_iff.mpr h2] at this
      cases this
  have hvalid : isValidPrompt s = true := by
    rw [isValidPrompt, if_neg hne]
    have hlen : ((jsTrim s).length < 3 || (jsTrim s).length > 2000) = false := by
      simp only [Bool.or_eq_false_iff, decide_eq_false_iff_not, not_lt]
      omega
    simp only [hlen, Bool.false_eq_true, if_false, hpro, Bool.not_false]
  rw [validatePrompt]
  have hfalsy : jsFalsy (.strV s) = false := by
    simp [jsFalsy, hne]
  rw [if_neg (by rw [hfalsy]; simp)]
  simp only [hvalid, Bool.not_true, Bool.false_eq_true, if_false]

/-- For each prohibited term: it is non-empty, whitespace-free, and at
least three characters long. -/
theorem prohibitedTerms_facts (term : String) (h : term ∈ prohibitedTerms) :
    term.toList ≠ [] ∧ (∀ c ∈ term.toList, isJsWs c = false) ∧
      3 ≤ term.toList.length := by
  fin_cases h <;> exact ⟨by decide, by decide, by decide⟩

/-- C7 (amended): every input string containing a case-insensitive
occurrence of a prohibited term is rejected by `validatePrompt`; the
message is the prohibited-content one when the trimmed input has at
most 2000 characters, but the too-long one when it exceeds 2000
characters, because the middleware selects the length-based message
before considering content. -/
theorem validatePrompt_prohibited_amended (s : String)
    (h : ∃ term ∈ prohibitedTerms,
      hasSubstr term.toList (jsLower s).toList = true) :
    validatePrompt (.strV s) =
      .rejected (if (jsTrim s).length ≤ 2000 then msgProhibited else msgTooLong) := by
  obtain ⟨term, hterm, hsub⟩ := h
  obtain ⟨hne, hclean, hlen3⟩ := prohibitedTerms_facts term hterm
  have hinf : term.toList <:+: (jsLower s).toList := hasSubstr_iff.mp hsub
  have hinft : term.toList <:+: trimList isJsWs ((jsLower s).toList) :=
    sub_trimList_of_clean hne hclean hinf
  rw [← jsLower_jsTrim_toList] at hinft
  have hpro : hasProhibited (jsTrim s) = true := by
    rw [hasProhibited, List.any_eq_true]
    exact ⟨term, hterm, hasSubstr_iff.mpr hinft⟩
  have htl : 3 ≤ (jsTrim s).length := by
    have := hinft.length_le
    have hlm : (jsLower (jsTrim s)).toList.length = (jsTrim s).length := by
      rw [toList_jsLower, List.length_map]; rfl
    omega
  have hsne : s ≠ "" := by
    intro hc; subst hc
    rw [jsTrim_empty] at htl
    simp at htl
  have hfalsy : (jsFalsy (.strV s) = true) = False := by
    simp [jsFalsy, hsne]
  have hinvalid : isValidPrompt s = false := by
    rw [isValidPrompt, if_neg hsne]
    by_cases hbig : (jsTrim s).length ≤ 2000
    · have hlen : ((jsTrim s).length < 3 || (jsTrim s).length > 2000) = false := by
        simp only [Bool.or_eq_false_iff, decide_eq_false_iff_not, not_lt]
        omega
      simp only [hlen, Bool.false_eq_true, if_false, hpro, Bool.not_true]
    · have hlen : ((jsTrim s).length < 3 || (jsTrim s).length > 2000) = true := by
        simp only [Bool.or_eq_true, decide_eq_true_eq]
        omega
      simp only [hlen, if_true]
  rw [validatePrompt, if_neg (by rw [hfalsy]; simp)]
  simp only [hinvalid, Bool.not_false, if_true]
  by_cases hbig : (jsTrim s).length ≤ 2000
  · rw [if_pos hbig, if_neg (by omega), if_neg (by omega)]
  · rw [if_neg hbig, if_neg (by omega), if_pos (by omega)]

/-- A 2001-character prompt that contains the prohibited term `nsfw`. -/
def cexProhibited : String :=
  String.mk (['n', 's', 'f', 'w'] ++ List.replicate 1997 'a')

theorem cexProhibited_clean :
    ∀ c ∈ (['n', 's', 'f', 'w'] ++ List.replicate 1997 'a' : List Char),
      isJsWs c = false := by
  intro c hc
  rcases List.mem_append.mp hc with h | h
  · fin_cases h <;> decide
  · rw [List.eq_of_mem_replicate h]; decide

theorem cexProhibited_trim : jsTrim cexProhibited = cexProhibited := by
  show String.mk (trimList isJsWs (['n', 's', 'f', 'w'] ++ List.replicate 1997 'a')) = _
  rw [trimList_eq_self cexProhibited_clean]
  rfl

theorem cexProhibited_length : cexProhibited.length = 2001 := by
  show (['n', 's', 'f', 'w'] ++ List.replicate 1997 'a' : List Char).length = 2001
  rw [List.length_append, List.length_replicate]
  decide

theorem cexProhibited_ne_empty : cexProhibited ≠ "" := by
  intro h
  have := congrArg String.length h
  rw [cexProhibited_length] at this
  simp at this

theorem cexProhibited_lower : jsLower cexProhibited = cexProhibited := by
  show String.mk ((['n', 's', 'f', 'w'] ++ List.replicate 1997 'a').map jsLowerChar) = _
  rw [List.map_append, List.map_replicate]
  rfl

/-- C7 counterexample: `cexProhibited` contains the prohibited term
`nsfw` case-insensitively, yet `validatePrompt` rejects it with the
too-long message, not the prohibited-content one: the middleware picks
the length-based message first when the trimmed prompt exceeds 2000
characters. -/
theorem validatePrompt_prohibited_counterexample :
    hasSubstr "nsfw".toList (jsLower cexProhibited).toList = true
    ∧ validatePrompt (.strV cexProhibited) = .rejected msgTooLong
    ∧ msgTooLong ≠ msgProhibited := by
  refine ⟨?_, ?_, by decide⟩
  · rw [cexProhibited_lower]
    show hasSubstr "nsfw".toList ('n' :: ('s' :: 'f' :: 'w' :: List.replicate 1997 'a')) = true
    rw [hasSubstr, Bool.or_eq_true]
    left
    rw [List.isPrefixOf_iff_prefix]
    exact List.prefix_append ['n', 's', 'f', 'w'] (List.replicate 1997 'a')
  · have hinvalid : isValidPrompt cexProhibited = false := by
      rw [isValidPrompt, if_neg cexProhibited_ne_empty]
      have hlen : ((jsTrim cexProhibited).length < 3
          || (jsTrim cexProhibited).length > 2000) = true := by
        rw [cexProhibited_trim, cexProhibited_length]
        decide
      simp only [hlen, if_true]
    rw [validatePrompt,
      if_neg (by simp [jsFalsy, cexProhibited_ne_empty])]
    simp only [hinvalid, Bool.not_false, if_true, cexProhibited_trim,
      cexProhibited_length]
    rfl

/-- C8 (amended): every non-empty input string whose trimmed form is
shorter than 3 characters is rejected with the too-short message, and
every input string whose trimmed form exceeds 2000 characters is
rejected with the too-long message; the empty string is instead caught
by the falsy check and rejected as a missing field. -/
theorem validatePrompt_length_amended (s : String) :
    (s ≠ "" → (jsTrim s).length < 3 →
      validatePrompt (.strV s) = .rejected msgTooShort)
    ∧ (2000 < (jsTrim s).length →
      validatePrompt (.strV s) = .rejected msgTooLong) := by
  constructor
  · intro hne hlt
    have hinvalid : isValidPrompt s = false := by
      rw [isValidPrompt, if_neg hne]
      have hlen : ((jsTrim s).length < 3 || (jsTrim s).length > 2000) = true := by
        simp only [Bool.or_eq_true, decide_eq_true_eq]
        omega
      simp only [hlen, if_true]
    rw [validatePrompt, if_neg (by simp [jsFalsy, hne])]
    simp only [hinvalid, Bool.not_false, if_true]
    rw [if_pos hlt]
  · intro hgt
    have hne : s ≠ "" := by
      intro hc; subst hc
      rw [jsTrim_empty] at hgt
      simp at hgt
    have hinvalid : isValidPrompt s = false := by
      rw [isValidPrompt, if_neg hne]
      have hlen : ((jsTrim s).length < 3 || (jsTrim s).length > 2000) = true := by
        simp only [Bool.or_eq_true, decide_eq_true_eq]
        omega
      simp only [hlen, if_true]
    rw [validatePrompt, if_neg (by simp [jsFalsy, hne])]
    simp only [hinvalid, Bool.not_false, if_true]
    rw [if_neg (by omega), if_pos (by omega)]

/-- C8 counterexample: the empty string has trimmed length 0 < 3, yet
`validatePrompt` answers with the missing-field branch, not the
too-short rejection. -/
theorem validatePrompt_empty_counterexample :
    validatePrompt (.strV "") = .missingField
    ∧ VPResult.missingField ≠ VPResult.rejected msgTooShort := by
  exact ⟨rfl, by decide⟩

/-- Witness for the acceptance theorem at the concrete input
`" a cat "`, whose trimmed form is `"a cat"`. -/
theorem validatePrompt_accepts_clean_witness :
    3 ≤ (jsTrim " a cat ").length
    ∧ validatePrompt (.strV " a cat ") = .ok (jsTrim " a cat ") :=
  ⟨by decide, validatePrompt_accepts_clean " a cat " (by decide) (by decide)
    (by decide)⟩

/-- Witness for the amended prohibited-content theorem at the concrete
input `"some NSFW picture"` (17 characters, so the prohibited branch). -/
theorem validatePrompt_prohibited_amended_witness :
    hasSubstr "nsfw".toList (jsLower "some NSFW picture").toList = true
    ∧ validatePrompt (.strV "some NSFW picture") =
        .rejected (if (jsTrim "some NSFW picture").length ≤ 2000
                   then msgProhibited else msgTooLong) :=
  ⟨by decide, validatePrompt_prohibited_amended "some NSFW picture"
    ⟨"nsfw", by decide, by decide⟩⟩

/-- A 2001-character prompt with no prohibited content. -/
def longPrompt : String := String.mk (List.replicate 2001 'a')

theorem longPrompt_trim : jsTrim longPrompt = longPrompt := by
  show String.mk (trimList isJsWs (List.replicate 2001 'a')) = _
  rw [trimList_eq_self (fun c hc => by rw [List.eq_of_mem_replicate hc]; decide)]
  rfl

theorem longPrompt_trim_length : 2000 < (jsTrim longPrompt).length := by
  rw [longPrompt_trim]
  show 2000 < (List.replicate 2001 'a').length
  rw [List.length_replicate]
  omega

/-- Witness for the amended length theorem: the 2-character prompt
`"ab"` is rejected as too short, and the 2001-character `longPrompt`
as too long. -/
theorem validatePrompt_length_amended_witness :
    (validatePrompt (.strV "ab") = .rejected msgTooShort)
    ∧ (2000 < (jsTrim longPrompt).length
       ∧ validatePrompt (.strV longPrompt) = .rejected msgTooLong) :=
  ⟨(validatePrompt_length_amended "ab").1 (by decide) (by decide),
   longPrompt_trim_length,
   (validatePrompt_length_amended longPrompt).2 longPrompt_trim_length⟩

/-! ## Rate-limiter claims -/

theorem jsCeilDiv_pos {a : Int} (h : 1 ≤ a) : 0 < jsCeilDiv a 1000 := by
  have hneg : -a < 0 := by omega
  have := Int.fdiv_neg' hneg (by omega : (0 : Int) < 1000)
  unfold jsCeilDiv
  omega

theorem headD_le_of_pairwise {l : List Int} (hsort : List.Pairwise (· ≤ ·) l) :
    ∀ t ∈ l, l.headD 0 ≤ t := by
  intro t ht
  cases l with
  | nil => cases ht
  | cons h rest =>
    rcases List.mem_cons.mp ht with rfl | hmem
    · exact le_refl t
    · exact (List.pairwise_cons.mp hsort).1 t hmem

/-- Unfolding equation of `validateRequestRate` with its local bindings expanded. -/
theorem validateRequestRate_eq (store : RateStore) (clientIP : String) (now : Int) :
    validateRequestRate store clientIP now =
      if maxRequests ≤ (pruneWindow now ((store clientIP).getD [])).length then
        (.denied (jsCeilDiv
          ((pruneWindow now ((store clientIP).getD [])).headD 0 + windowMs - now) 1000),
         store)
      else
        (.allowed, fun k => if k = clientIP
          then some (pruneWindow now ((store clientIP).getD []) ++ [now])
          else store k) := rfl

/-- C2: the rate-limit algorithm. Under a store whose entries for the
key are sorted and not in the future (which operation under a monotone
clock maintains), pruning keeps exactly the entries inside the window;
when the pruned count has reached the maximum of 10 the call is denied
with `retryAfter = ceil((oldest + windowMs - now) / 1000)` — the head
of the pruned list being its oldest entry — and that value is positive;
otherwise the call is allowed and `now` is appended to the pruned list
under the key. In particular a key with exactly 10 stored in-window
timestamps is denied, and a key whose oldest entry has aged out of the
window (with at most 10 entries stored) is allowed. -/
theorem validateRequestRate_spec (store : RateStore) (clientIP : String) (now : Int)
    (hsort : List.Pairwise (· ≤ ·) ((store clientIP).getD []))
    (hpast : ∀ t ∈ (store clientIP).getD [], t ≤ now) :
    (maxRequests ≤ (pruneWindow now ((store clientIP).getD [])).length →
      validateRequestRate store clientIP now =
        (.denied (jsCeilDiv
          ((pruneWindow now ((store clientIP).getD [])).headD 0 + windowMs - now) 1000),
         store)
      ∧ 0 < jsCeilDiv
          ((pruneWindow now ((store clientIP).getD [])).headD 0 + windowMs - now) 1000
      ∧ (∀ t ∈ pruneWindow now ((store clientIP).getD []),
          (pruneWindow now ((store clientIP).getD [])).headD 0 ≤ t))
    ∧ ((pruneWindow now ((store clientIP).getD [])).length < maxRequests →
      (validateRequestRate store clientIP now).1 = .allowed
      ∧ (validateRequestRate store clientIP now).2 clientIP =
          some (pruneWindow now ((store clientIP).getD []) ++ [now]))
    ∧ (((store clientIP).getD []).length = 10 →
      (∀ t ∈ (store clientIP).getD [], now - t < windowMs) →
      (validateRequestRate store clientIP now).1 =
        .denied (jsCeilDiv (((store clientIP).getD []).headD 0 + windowMs - now) 1000))
    ∧ (((store clientIP).getD []).length ≤ 10 →
      (store clientIP).getD [] ≠ [] →
      ((store clientIP).getD []).headD 0 + windowMs ≤ now →
      (validateRequestRate store clientIP now).1 = .allowed) := by
  refine ⟨?_, ?_, ?_, ?_⟩
  · intro hfull
    have hne : pruneWindow now ((store clientIP).getD []) ≠ [] := by
      intro hc
      rw [hc] at hfull
      simp [maxRequests] at hfull
    have hhead : (pruneWindow now ((store clientIP).getD [])).headD 0
        ∈ pruneWindow now ((store clientIP).getD []) := by
      cases hl : pruneWindow now ((store clientIP).getD []) with
      | nil => exact absurd hl hne
      | cons a t => simp
    have hin : now - (pruneWindow now ((store clientIP).getD [])).headD 0 < windowMs := by
      have := List.mem_filter.mp hhead
      exact of_decide_eq_true this.2
    refine ⟨?_, jsCeilDiv_pos (by omega), ?_⟩
    · rw [validateRequestRate_eq, if_pos hfull]
    · exact headD_le_of_pairwise (hsort.filter _)
  · intro hroom
    rw [validateRequestRate_eq, if_neg (by omega)]
    exact ⟨rfl, by simp⟩
  · intro hlen hall
    have hkeep : pruneWindow now ((store clientIP).getD [])
        = (store clientIP).getD [] :=
      List.filter_eq_self.mpr fun t ht => decide_eq_true (hall t ht)
    rw [validateRequestRate_eq, hkeep, if_pos (by rw [hlen]; exact le_refl 10)]
  · intro hlen hne hold
    obtain ⟨h, t, hht⟩ := List.exists_cons_of_ne_nil hne
    have hhd : h + windowMs ≤ now := by
      rw [hht] at hold
      simpa using hold
    have hprune : pruneWindow now ((store clientIP).getD [])
        = pruneWindow now t := by
      rw [hht, pruneWindow, List.filter_cons, if_neg (by simp; omega)]
      rfl
    have hshort : (pruneWindow now ((store clientIP).getD [])).length < maxRequests := by
      have h1 : (pruneWindow now t).length ≤ t.length := List.length_filter_le _ _
      have h2 : t.length + 1 = ((store clientIP).getD []).length := by rw [hht]; rfl
      rw [hprune, maxRequests]
      omega
    rw [validateRequestRate_eq, if_neg (by omega)]

/-- A concrete store: one client with ten in-window timestamps. -/
def storeTen : RateStore :=
  fun k => if k = "203.0.113.7"
    then some [1000, 2000, 3000, 4000, 5000, 6000, 7000, 8000, 9000, 10000]
    else none

/-- Witness for the rate-limit algorithm theorem: with ten stored
in-window timestamps, the call at `now = 20000` is denied and the
retry-after value is `ceil((1000 + 60000 - 20000) / 1000) = 41`. -/
theorem validateRequestRate_spec_witness :
    List.Pairwise (· ≤ ·) ((storeTen "203.0.113.7").getD [])
    ∧ (validateRequestRate storeTen "203.0.113.7" 20000).1 = .denied 41 := by
  refine ⟨by decide, ?_⟩
  have h := (validateRequestRate_spec storeTen "203.0.113.7" 20000
    (by decide) (by decide)).2.2.1 (by decide) (by decide)
  rw [h]
  decide

/-- C10: the store invariant maintained by the rate limiter. Under a store whose
entries for the key are sorted and not in the future, an allowing call
stores back, for that key alone, the pruned list with `now` appended:
it has at most 10 entries, is sorted, and every entry lies in the
60-second window ending at `now`; a denying call returns the store
unchanged (the pruned view is not written back). -/
theorem rateStore_invariant (store : RateStore) (clientIP : String) (now : Int)
    (hsort : List.Pairwise (· ≤ ·) ((store clientIP).getD []))
    (hpast : ∀ t ∈ (store clientIP).getD [], t ≤ now) :
    ((pruneWindow now ((store clientIP).getD [])).length < maxRequests →
      (validateRequestRate store clientIP now).1 = .allowed
      ∧ (validateRequestRate store clientIP now).2 clientIP =
          some (pruneWindow now ((store clientIP).getD []) ++ [now])
      ∧ (pruneWindow now ((store clientIP).getD []) ++ [now]).length ≤ maxRequests
      ∧ List.Pairwise (· ≤ ·) (pruneWindow now ((store clientIP).getD []) ++ [now])
      ∧ (∀ t ∈ pruneWindow now ((store clientIP).getD []) ++ [now],
          now - windowMs < t ∧ t ≤ now)
      ∧ (∀ k, k ≠ clientIP → (validateRequestRate store clientIP now).2 k = store k))
    ∧ (maxRequests ≤ (pruneWindow now ((store clientIP).getD [])).length →
      (validateRequestRate store clientIP now).2 = store) := by
  constructor
  · intro hroom
    rw [validateRequestRate_eq, if_neg (by omega)]
    refine ⟨rfl, by simp, ?_, ?_, ?_, ?_⟩
    · rw [List.length_append, List.length_singleton]
      omega
    · rw [List.pairwise_append]
      refine ⟨hsort.filter _, List.pairwise_singleton _ _, ?_⟩
      intro a ha b hb
      rw [List.mem_singleton] at hb
      subst hb
      exact hpast a (List.mem_of_mem_filter ha)
    · intro t ht
      rcases List.mem_append.mp ht with h | h
      · have hmem := List.mem_filter.mp h
        have hwin : now - t < windowMs := of_decide_eq_true hmem.2
        exact ⟨by omega, hpast t hmem.1⟩
      · rw [List.mem_singleton] at h
        rw [h, windowMs]
        omega
    · intro k hk
      simp [if_neg hk]
  · intro hfull
    rw [validateRequestRate_eq, if_pos hfull]

/-- A concrete store: one client with three in-window timestamps. -/
def storeThree : RateStore :=
  fun k => if k = "203.0.113.8" then some [1000, 2000, 3000] else none

/-- Witness for the store-invariant theorem: with three stored
timestamps, the call at `now = 4000` is allowed and the key now holds
the four sorted in-window timestamps. -/
theorem rateStore_invariant_witness :
    (pruneWindow 4000 ((storeThree "203.0.113.8").getD [])).length < maxRequests
    ∧ (validateRequestRate storeThree "203.0.113.8" 4000).1 = .allowed
    ∧ (validateRequestRate storeThree "203.0.113.8" 4000).2 "203.0.113.8" =
        some [1000, 2000, 3000, 4000] := by
  refine ⟨by decide, ?_, ?_⟩
  · exact ((rateStore_invariant storeThree "203.0.113.8" 4000
      (by decide) (by decide)).1 (by decide)).1
  · have h := ((rateStore_invariant storeThree "203.0.113.8" 4000
      (by decide) (by decide)).1 (by decide)).2.1
    rw [h]
    decide

/-! ## Upstream-client claims -/

/-- C3: on every upstream response with a non-success status,
`processCloudflareResponse` produces the `CloudflareAPIError` result
carrying the original status code; its message is the first structured
error message whenever the body parsed as JSON with a non-empty
`errors` array whose first entry has a truthy `message`, and the
generic `request failed with status` message when there is no parsed
body, no `errors` field, or an empty `errors` array. -/
theorem processCloudflareResponse_error_spec (r : CFResponse)
    (h : respOk r = false) :
    (∀ e rest m, r.jsonBody = some ⟨some (e :: rest)⟩ → e.message = some m →
      m ≠ "" → processCloudflareResponse r = .apiError m r.status)
    ∧ (r.jsonBody = none ∨ r.jsonBody = some ⟨none⟩ ∨ r.jsonBody = some ⟨some []⟩ →
      processCloudflareResponse r = .apiError (genericCFMessage r.status) r.status) := by
  constructor
  · intro e rest m hj hm hne
    rw [processCloudflareResponse]
    rw [if_neg (by rw [h]; simp)]
    rw [cfErrorMessage, hj]
    simp only [hm, if_neg hne]
  · intro hj
    rw [processCloudflareResponse]
    rw [if_neg (by rw [h]; simp)]
    rcases hj with hj | hj | hj <;> rw [cfErrorMessage, hj]

/-- The mocked 500 response of the spec's test, with body
`errors = [ message "quota exceeded" ]`. -/
def respQuota : CFResponse :=
  { status := 500, jsonBody := some ⟨some [⟨some "quota exceeded"⟩]⟩, bytes := [] }

/-- Witness for the error-classification theorem at the mocked
response: the failure message is exactly `quota exceeded` and the
status 500 is preserved. -/
theorem processCloudflareResponse_error_spec_witness :
    respOk respQuota = false
    ∧ processCloudflareResponse respQuota = .apiError "quota exceeded" 500 :=
  ⟨by decide,
   (processCloudflareResponse_error_spec respQuota (by decide)).1
     ⟨some "quota exceeded"⟩ [] "quota exceeded" rfl rfl (by decide)⟩

/-- Unfolding equation of `generateImage`. -/
theorem generateImage_eq (env : Env) (net : UpstreamOutcome) (prompt : String) :
    generateImage env net prompt =
      if jsFalsyOptStr env.accountId then (.authError msgAccountRequired, false)
      else if jsFalsyOptStr env.apiToken then (.authError msgTokenRequired, false)
      else match net with
        | .networkError m => (.unexpected ("Image generation failed: " ++ m), true)
        | .response r => (processCloudflareResponse r, true) := rfl

/-- If `isValidPrompt` holds, the middleware passes the trimmed prompt on. -/
theorem validatePrompt_ok_of_valid {s : String} (h : isValidPrompt s = true) :
    validatePrompt (.strV s) = .ok (jsTrim s) := by
  have hne : s ≠ "" := by
    intro hc; subst hc
    rw [isValidPrompt, if_pos rfl] at h
    cases h
  rw [validatePrompt, if_neg (by simp [jsFalsy, hne])]
  simp only [h, Bool.not_true, Bool.false_eq_true, if_false]

/-- C4: when the account identifier is absent (or, it being present,
when the API token is absent), `generateImage` returns the
`AuthenticationError` with the `<name> is required` message of the
missing credential and never reaches `fetch`; and for any request that
passed prompt validation, the POST handler maps such a failure to
HTTP status 401. -/
theorem generateImage_auth_spec (env : Env) (net : UpstreamOutcome)
    (prompt : String) :
    (jsFalsyOptStr env.accountId = true →
      generateImage env net prompt = (.authError msgAccountRequired, false))
    ∧ (jsFalsyOptStr env.accountId = false → jsFalsyOptStr env.apiToken = true →
      generateImage env net prompt = (.authError msgTokenRequired, false))
    ∧ (∀ clock : Clock, ∀ s : String, isValidPrompt s = true →
      jsFalsyOptStr env.accountId = true ∨ jsFalsyOptStr env.apiToken = true →
      (handlePost env net (.strV s) clock).status = 401) := by
  refine ⟨?_, ?_, ?_⟩
  · intro h
    rw [generateImage_eq, if_pos (by rw [h])]
  · intro h1 h2
    rw [generateImage_eq, if_neg (by rw [h1]; simp), if_pos (by rw [h2])]
  · intro clock s hs hcred
    have hv := validatePrompt_ok_of_valid hs
    have hgen : ∃ msg, generateImage env net (jsTrim s) = (.authError msg, false) := by
      by_cases h1 : jsFalsyOptStr env.accountId = true
      · exact ⟨msgAccountRequired, by rw [generateImage_eq, if_pos (by rw [h1])]⟩
      · have h2 : jsFalsyOptStr env.apiToken = true := by
          rcases hcred with h | h
          · exact absurd h h1
          · exact h
        refine ⟨msgTokenRequired, ?_⟩
        rw [generateImage_eq, if_neg (by simpa using h1), if_pos (by rw [h2])]
    obtain ⟨msg, hmsg⟩ := hgen
    simp only [handlePost, hv, hmsg]

/-- Witness for the authentication theorem: with both credentials
absent the account message is produced without a network call, and the
handler answers 401 for the valid prompt `"a cat"`. -/
theorem generateImage_auth_spec_witness :
    jsFalsyOptStr (Env.mk none none).accountId = true
    ∧ generateImage ⟨none, none⟩ (.networkError "unreachable") "a cat" =
        (.authError msgAccountRequired, false)
    ∧ (handlePost ⟨none, none⟩ (.networkError "unreachable") (.strV "a cat")
        ⟨"2024-01-01T00:00:00.000Z", 5⟩).status = 401 :=
  ⟨rfl,
   (generateImage_auth_spec ⟨none, none⟩ (.networkError "unreachable") "a cat").1 rfl,
   (generateImage_auth_spec ⟨none, none⟩ (.networkError "unreachable") "a cat").2.2
     ⟨"2024-01-01T00:00:00.000Z", 5⟩ "a cat" (by decide) (Or.inl rfl)⟩

/-- C5: for every canonical (trimmed) valid prompt and every upstream
success response with body bytes `B`, `POST /generate` answers 200
with a JSON envelope whose `image` is the base64 encoding of `B`,
`success` is `true`, `prompt` is the submitted prompt, and whose
`timestamp` and `processingTimeMs` fields carry the request clock's
ISO-8601 string and elapsed milliseconds. -/
theorem handlePost_success_spec (env : Env) (prompt : String) (clock : Clock)
    (r : CFResponse)
    (hp : isValidPrompt prompt = true) (htrim : jsTrim prompt = prompt)
    (hacc : jsFalsyOptStr env.accountId = false)
    (htok : jsFalsyOptStr env.apiToken = false)
    (hok : respOk r = true) :
    handlePost env (.response r) (.strV prompt) clock =
      { status := 200, success := true, image := some (base64Encode r.bytes),
        prompt := some prompt, timestamp := some clock.iso,
        processingTimeMs := some clock.elapsedMs } := by
  have hv := validatePrompt_ok_of_valid hp
  rw [htrim] at hv
  have hgen : generateImage env (.response r) prompt =
      (.ok (base64Encode r.bytes), true) := by
    rw [generateImage_eq, if_neg (by rw [hacc]; simp), if_neg (by rw [htok]; simp)]
    show (processCloudflareResponse r, true) = _
    rw [processCloudflareResponse, if_pos (by rw [hok])]
  simp only [handlePost, hv, hgen]

/-- Witness for the success-envelope theorem: prompt `"a cat"` and the
PNG-signature bytes, whose base64 encoding is `iVBORw==`. -/
theorem handlePost_success_spec_witness :
    isValidPrompt "a cat" = true
    ∧ handlePost ⟨some "acct", some "token"⟩
        (.response ⟨200, none, [137, 80, 78, 71]⟩) (.strV "a cat")
        ⟨"2024-01-01T00:00:00.000Z", 5⟩ =
      { status := 200, success := true, image := some "iVBORw==",
        prompt := some "a cat", timestamp := some "2024-01-01T00:00:00.000Z",
        processingTimeMs := some 5 } := by
  constructor
  · decide
  · have h := handlePost_success_spec ⟨some "acct", some "token"⟩ "a cat"
      ⟨"2024-01-01T00:00:00.000Z", 5⟩ ⟨200, none, [137, 80, 78, 71]⟩
      (by decide) (by decide) rfl rfl rfl
    rw [h]
    decide

/-! ## Direct-mode (GET) claim -/

/-- C9: the GET handler's inline check is purely a length check: every
request whose URL-decoded prompt trims to fewer than 3 or more than
2000 characters is answered 400 without `generateImage` ever being
called, and every prompt trimming into the 3..2000 range reaches
`generateImage` — regardless of content, so no prohibited-content
check happens in this mode. -/
theorem handleGet_length_check_spec (env : Env) (net : UpstreamOutcome)
    (prompt : String) (clock : Clock) :
    ((jsTrim prompt).length < 3 ∨ 2000 < (jsTrim prompt).length →
      (handleGet env net prompt clock).1.status = 400
      ∧ (handleGet env net prompt clock).2 = false)
    ∧ (3 ≤ (jsTrim prompt).length → (jsTrim prompt).length ≤ 2000 →
      (handleGet env net prompt clock).2 = true) := by
  constructor
  · intro h
    have hcond : (prompt = "" || (jsTrim prompt).length < 3
        || (jsTrim prompt).length > 2000) = true := by
      rcases h with h | h <;> simp <;> omega
    rw [handleGet, if_pos (by rw [hcond])]
    exact ⟨rfl, rfl⟩
  · intro h3 h2000
    have hne : prompt ≠ "" := ne_empty_of_trim_length h3
    have hcond : (prompt = "" || (jsTrim prompt).length < 3
        || (jsTrim prompt).length > 2000) = false := by
      simp [hne]
      omega
    rw [handleGet, if_neg (by rw [hcond]; simp)]
    rcases hg : generateImage env net (jsTrim prompt) with ⟨res, called⟩
    cases res <;> simp [hg]

/-- Witness for the GET length-check theorem: the 2-character prompt
`"ab"` of the spec's end-to-end test is answered 400 with no upstream
call, and the in-range prompt `"an nsfw cat"` (prohibited content but
11 characters) does reach `generateImage`. -/
theorem handleGet_length_check_spec_witness :
    ((jsTrim "ab").length < 3
     ∧ (handleGet ⟨some "acct", some "token"⟩
         (.response ⟨200, none, [137, 80, 78, 71]⟩) "ab"
         ⟨"2024-01-01T00:00:00.000Z", 5⟩).1.status = 400
     ∧ (handleGet ⟨some "acct", some "token"⟩
         (.response ⟨200, none, [137, 80, 78, 71]⟩) "ab"
         ⟨"2024-01-01T00:00:00.000Z", 5⟩).2 = false)
    ∧ (handleGet ⟨some "acct", some "token"⟩
         (.response ⟨200, none, [137, 80, 78, 71]⟩) "an nsfw cat"
         ⟨"2024-01-01T00:00:00.000Z", 5⟩).2 = true := by
  refine ⟨⟨by decide, ?_⟩, ?_⟩
  · exact (handleGet_length_check_spec ⟨some "acct", some "token"⟩
      (.response ⟨200, none, [137, 80, 78, 71]⟩) "ab"
      ⟨"2024-01-01T00:00:00.000Z", 5⟩).1 (Or.inl (by decide))
  · exact (handleGet_length_check_spec ⟨some "acct", some "token"⟩
      (.response ⟨200, none, [137, 80, 78, 71]⟩) "an nsfw cat"
      ⟨"2024-01-01T00:00:00.000Z", 5⟩).2 (by decide) (by decide)

/-! ## The POST pipeline and rate limiting (C1) -/

/-- The environment, mocked network and clock of the end-to-end
rate-limit scenario: valid credentials and a successful upstream. -/
def envDemo : Env := ⟨some "acct", some "token"⟩

def netDemo : UpstreamOutcome := .response ⟨200, none, [137, 80, 78, 71]⟩

def clockDemo : Clock := ⟨"2024-01-01T00:00:00.000Z", 5⟩

/-- A reply value used only as the out-of-range default of `List.getD`. -/
def dummyReply : PostReply :=
  { status := 0, success := false }

/-- C1, evaluated against the code: the middleware chain actually
mounted for `POST /generate` is `[validatePrompt, handler]` —
`validateRequestRate` is defined and exported by the middleware module
but never mounted by the router or the server — so no reply of the
pipeline ever carries status 429, and in the end-to-end scenario of
eleven valid same-client requests inside one window the eleventh reply
has status 200 (it reaches the upstream call) instead of the 429 the
specification asserts. -/
theorem postPipeline_no_rate_limit :
    (∀ (env : Env) (net : UpstreamOutcome) (body : JsValue) (clock : Clock)
      (store : RateStore),
      (postPipeline env net body clock store).1.status ∈
        ([200, 400, 401, 500, 502] : List Nat))
    ∧ ((runPosts envDemo netDemo clockDemo
        (List.replicate 11 (.strV "a cat")) emptyStore).1.getD 10 dummyReply).status
      = 200 := by
  constructor
  · intro env net body clock store
    show (handlePost env net body clock).status ∈ _
    rcases hv : validatePrompt body with _ | _ | msg | p <;>
      simp only [handlePost, hv]
    · simp
    · simp
    · simp
    · rcases hg : generateImage env net p with ⟨res, called⟩
      cases res <;> simp [hg]
  · decide
